import Mathlib

/-!
# Verification of the triton-shared pointer-lowering passes

Shallow embedding of the two conversion passes

* `lib/Conversion/TritonLoadStoreToMemref/TritonLoadStoreToMemrefPass.cpp`
* `lib/Conversion/TritonToStructured/TritonToStructuredPass.cpp`

The data model is a small fragment of the MLIR type system (integers,
floats, index, pointers, ranked tensors and tuples), typed constant
values, and explicit records describing the operations each rewrite
pattern emits.  Rewrite patterns become Lean functions from their
operands to the emitted structure; the semantics of the emitted code
(gather loads, guarded stores) is given by executable functions over
memory modelled as `Nat → TypedValue`.
-/

namespace TritonShared

/-- Fragment of the MLIR type system used by the two passes:
integer types `iN`, float types `fN`, `index`, triton pointer types
`!tt.ptr<T>`, ranked tensors `tensor<shape x T>` and builtin tuples. -/
inductive MLIRType where
  | int (width : Nat)
  | float (width : Nat)
  | index
  | ptr (pointee : MLIRType)
  | tensor (shape : List Nat) (elem : MLIRType)
  | tuple (elems : List MLIRType)

/-- `Type::isInteger()`: true exactly for the builtin integer types
(`index` is not an `IntegerType` in MLIR). -/
def MLIRType.isInteger : MLIRType → Bool
  | .int _ => true
  | _ => false

/-- `Type::isIntOrIndexOrFloat()`: integer, index or float type. -/
def MLIRType.isIntOrIndexOrFloat : MLIRType → Bool
  | .int _ => true
  | .index => true
  | .float _ => true
  | _ => false

/-- Whether a type is a triton pointer type (`isa<triton::PointerType>`). -/
def MLIRType.isPtr : MLIRType → Bool
  | .ptr _ => true
  | _ => false

/-- Whether a type is a ranked tensor type (`isa<RankedTensorType>`). -/
def MLIRType.isRankedTensor : MLIRType → Bool
  | .tensor _ _ => true
  | _ => false

/-- A constant value carrying its MLIR type, e.g. `arith.constant 0 : i32`
is `⟨.int 32, 0⟩`.  Float constants are represented by their (here always
integral) numeric value. -/
structure TypedValue where
  ty : MLIRType
  val : Int

/-- The zero "declared" for an element type: the zero constant *of that
type*.  This definition follows the spec's words ("a zero of the result's
element type") and is compared against the fallback the code emits. -/
def declaredZero (elemTy : MLIRType) : TypedValue := ⟨elemTy, 0⟩

end TritonShared

namespace TritonLoadStoreToMemref

open TritonShared

/-- The fallback constant built for a masked-out load element,
`TritonLoadStoreToMemrefPass.cpp` lines 269–282: if the loaded tensor's
element type `isInteger()` the code emits `arith.constant 0 : i32`
(`getI32IntegerAttr(0)`), otherwise `arith.constant 0.0 : f32`
(`getF32FloatAttr(0)`) — regardless of the actual element type. -/
def maskedLoadFallback (elemTy : MLIRType) : TypedValue :=
  if elemTy.isInteger then ⟨.int 32, 0⟩ else ⟨.float 32, 0⟩

/-- The `memref.reinterpret_cast` emitted by a rewrite, with its static
offset, sizes and strides operands. -/
structure ReinterpretCast where
  elemTy : MLIRType
  offset : Nat
  sizes : List Nat
  strides : List Nat

/-- The buffer views created by `LoadOpConverter::matchAndRewrite`
(lines 203–208): exactly one `memref.reinterpret_cast` of the base
pointer, always with offset `0`, sizes `{1024}` and strides `{1}` —
the result shape and the descriptor's offsets are not consulted. -/
def tensorLoadViews (resultShape : List Nat) (elemTy : MLIRType) : List ReinterpretCast :=
  let _ := resultShape
  [⟨elemTy, 0, [1024], [1]⟩]

/-- Element semantics of the `linalg.generic` emitted by
`LoadOpConverter::matchAndRewrite` (lines 238–286).  `window` is the
1-D tensor obtained from the reinterpreted view of the base pointer;
for each output position `iv` the body extracts `window (offsets iv)`;
with a mask it wraps the extract in `scf.if (mask iv)` whose else branch
yields `maskedLoadFallback`. -/
def tensorLoadResult (elemTy : MLIRType) (offsets : List Nat → Nat)
    (mask : Option (List Nat → Bool)) (window : Nat → TypedValue)
    (iv : List Nat) : TypedValue :=
  match mask with
  | none => window (offsets iv)
  | some m => if m iv then window (offsets iv) else maskedLoadFallback elemTy

/-- The offset operand of the `tts.make_ptr`-style op feeding a
load/store: either a scalar integer offset or a tensor of offsets. -/
inductive OffsetOperand where
  | scalar (v : Int)
  | tensorOff (shape : List Nat) (vals : List Nat → Nat)

/-- Outcome of a conversion pattern: `failure` is `return failure()`. -/
inductive PatternResult where
  | failure
  | success
deriving DecidableEq, Repr

/-- The match logic of `LoadOpConverter::matchAndRewrite` around the
offset operand (lines 186–191): a non-shaped (scalar) offset type makes
the pattern return `failure()`; otherwise the rewrite always succeeds —
no element type is ever rejected. -/
def loadOpConvertStatus (off : OffsetOperand) : PatternResult :=
  match off with
  | .scalar _ => .failure
  | .tensorOff _ _ => .success

/-- The `tts.make_ptr`-style descriptor-creation op (`tts::CreatePtrOp`)
whose operands the scalar converters read: a base pointer value and a
scalar offset. -/
structure CreatePtr where
  basePtr : Nat
  offset : Int

/-- What the scalar load rewrite emits on success: the
`memref.reinterpret_cast` of the base with the index-cast offset,
sizes `{1}`, strides `{1}`, and an `affine.load` at constant index 0. -/
structure ScalarLoadEmission where
  viewOffset : Int
  viewSizes : List Nat
  viewStrides : List Nat
  loadIndex : Nat

/-- Outcome of the scalar rewrites.  `matchFailure` is `return failure()`;
`nullDeref` records that the C++ dereferences the null handle returned by
`getDefiningOp<tts::CreatePtrOp>()` when the pointer operand is not
defined by such an op (there is no null check before `castOp.getPtr()`). -/
inductive ScalarRewrite (α : Type) where
  | matchFailure
  | nullDeref
  | rewritten (emission : α)

/-- `ScalarLoadConverter::matchAndRewrite` (lines 90–124): loads whose
result type is not int/index/float fail the match; otherwise the pattern
fetches the defining `tts::CreatePtrOp` of the pointer operand and uses
it unconditionally. -/
def scalarLoadRewrite (resultTy : MLIRType) (ptrDef : Option CreatePtr) :
    ScalarRewrite ScalarLoadEmission :=
  if !resultTy.isIntOrIndexOrFloat then .matchFailure
  else
    match ptrDef with
    | none => .nullDeref
    | some cp => .rewritten ⟨cp.offset, [1], [1], 0⟩

/-- What the scalar store rewrite emits on success: the reinterpreted
view and an `affine.store` of the value at constant index 0. -/
structure ScalarStoreEmission where
  viewOffset : Int
  viewSizes : List Nat
  viewStrides : List Nat
  storeIndex : Nat

/-- `ScalarStoreConverter::matchAndRewrite` (lines 132–168): same shape
as the scalar load — the value type must be int/index/float, then the
defining `tts::CreatePtrOp` is dereferenced without a null check. -/
def scalarStoreRewrite (valueTy : MLIRType) (ptrDef : Option CreatePtr) :
    ScalarRewrite ScalarStoreEmission :=
  if !valueTy.isIntOrIndexOrFloat then .matchFailure
  else
    match ptrDef with
    | none => .nullDeref
    | some cp => .rewritten ⟨cp.offset, [1], [1], 0⟩

/-!
## Store lowering: emitted operation structure

`StoreOpConverter::matchAndRewrite` (lines 300–377) builds one
`affine.for` per result dimension, moving the insertion point to the
start of each new loop body, and places the per-element store (guarded
by `scf.if` on the mask value when a mask is present) in the innermost
body.  We model the emitted region as a small syntax tree.
-/

/-- Operations emitted by the store rewrite. -/
inductive Emitted where
  | memrefCast
  | constantIndex (n : Nat)
  | tensorExtract
  | indexCast
  | memrefStore
  | scfIf (thenBody : Emitted)
  | affineFor (lb ub : Nat) (body : Emitted)
  | seq (fst snd : Emitted)

/-- Innermost body of the store loop nest.  Unmasked (lines 344–352):
extract offset, extract value, index-cast, `memref.store`.  Masked
(lines 354–370): extract mask value, then `scf.if` whose then-region
extracts value and offset, index-casts, and stores. -/
def innerStoreBody (masked : Bool) : Emitted :=
  if masked then
    .seq .tensorExtract
      (.scfIf (.seq (.seq (.seq .tensorExtract .tensorExtract) .indexCast) .memrefStore))
  else
    .seq (.seq (.seq .tensorExtract .tensorExtract) .indexCast) .memrefStore

/-- The loop nest of lines 332–342: for each dimension `dim` of the
stored tensor's shape, in order, emit an (unused) `arith.constant dim`
and an `affine.for %i = 0 to dim`, then continue inside its body. -/
def storeLoopNest : List Nat → Emitted → Emitted
  | [], inner => inner
  | d :: rest, inner => .seq (.constantIndex d) (.affineFor 0 d (storeLoopNest rest inner))

/-- Everything `StoreOpConverter::matchAndRewrite` emits for a tensor
store: the `memref.cast` of the base, index constants 0 and 1, then the
loop nest with the per-element (conditional) store innermost. -/
def storeLowering (shape : List Nat) (masked : Bool) : Emitted :=
  .seq (.seq (.seq .memrefCast (.constantIndex 0)) (.constantIndex 1))
    (storeLoopNest shape (innerStoreBody masked))

/-- Upper bounds of the `affine.for` ops of an emitted region, collected
outermost first. -/
def forBounds : Emitted → List (Nat × Nat)
  | .affineFor lb ub body => (lb, ub) :: forBounds body
  | .seq a b => forBounds a ++ forBounds b
  | .scfIf t => forBounds t
  | _ => []

/-- Maximal nesting depth of `affine.for` ops in an emitted region. -/
def forDepth : Emitted → Nat
  | .affineFor _ _ body => forDepth body + 1
  | .seq a b => max (forDepth a) (forDepth b)
  | .scfIf t => forDepth t
  | _ => 0

/-- Number of `memref.store` ops not inside any `scf.if`. -/
def unguardedStores : Emitted → Nat
  | .memrefStore => 1
  | .scfIf _ => 0
  | .affineFor _ _ body => unguardedStores body
  | .seq a b => unguardedStores a + unguardedStores b
  | _ => 0

/-- Total number of `memref.store` ops in an emitted region. -/
def totalStores : Emitted → Nat
  | .memrefStore => 1
  | .scfIf t => totalStores t
  | .affineFor _ _ body => totalStores body
  | .seq a b => totalStores a + totalStores b
  | _ => 0

/-- Number of `memref.store` ops that sit inside some `scf.if`. -/
def guardedStores : Emitted → Nat
  | .memrefStore => 0
  | .scfIf t => totalStores t
  | .affineFor _ _ body => guardedStores body
  | .seq a b => guardedStores a + guardedStores b
  | _ => 0

/-!
## Store lowering: execution semantics

The loop nest enumerates the index space of the stored tensor in
lexicographic order (outer loop = first dimension).  For each index
vector it either stores `value iv` at address `offsets iv`
unconditionally, or, when masked, only if `mask iv` holds.
-/

/-- Index space of a shape, enumerated as the emitted loop nest runs
it: first dimension outermost. -/
def indexSpace : List Nat → List (List Nat)
  | [] => [[]]
  | d :: rest => (List.range d).flatMap fun i => (indexSpace rest).map (i :: ·)

/-- The sequence of `(address, value)` store events the lowered loop
nest performs, in execution order.  With a mask, an index whose mask
bit is false contributes no event at all (the `scf.if` has no else
region). -/
def storeEvents (shape : List Nat) (offsets : List Nat → Nat)
    (value : List Nat → TypedValue) (mask : Option (List Nat → Bool)) :
    List (Nat × TypedValue) :=
  (indexSpace shape).filterMap fun iv =>
    match mask with
    | none => some (offsets iv, value iv)
    | some m => if m iv then some (offsets iv, value iv) else none

/-- Apply a sequence of store events to a memory, in order. -/
def applyStores (mem : Nat → TypedValue) : List (Nat × TypedValue) → Nat → TypedValue
  | [] => mem
  | (a, v) :: rest => applyStores (fun x => if x = a then v else mem x) rest

/-- Memory after the lowered (possibly masked) tensor store runs. -/
def loweredStoreMem (shape : List Nat) (offsets : List Nat → Nat)
    (value : List Nat → TypedValue) (mask : Option (List Nat → Bool))
    (mem : Nat → TypedValue) : Nat → TypedValue :=
  applyStores mem (storeEvents shape offsets value mask)

end TritonLoadStoreToMemref

namespace TritonToStructured

open TritonShared

/-- The complete type conversion of the `OneToNTypeConverter` used by
`TritonToStructuredPass::test` (`TritonToStructuredPass.cpp` lines
198–220): the ranked-tensor callback (added later, so tried first) and
the identity rule.  The callback fires for *every* ranked tensor type:
a tensor whose element type is a triton pointer maps to the single type
`tuple<tensorType, tuple<index × rank>, tuple<index × rank>>` — the
first tuple element being the *original* tensor-of-pointer type — while
a ranked tensor with any other element type hits `return failure()`
(line 219), an engaged `LogicalResult` that makes `convertType` fail
for that type outright, with no fallthrough to the identity rule
(`none` here).  Types that are not ranked tensors — scalar `!tt.ptr`
included — skip the callback and convert to themselves. -/
def oneToNConvertType : MLIRType → Option (List MLIRType)
  | .tensor shape (.ptr p) =>
      some [.tuple [.tensor shape (.ptr p),
                    .tuple (List.replicate shape.length .index),
                    .tuple (List.replicate shape.length .index)]]
  | .tensor _ _ => none
  | t => some [t]

mutual

/-- Whether a type contains a triton pointer type anywhere inside. -/
def containsPtr : MLIRType → Bool
  | .ptr _ => true
  | .tensor _ e => containsPtr e
  | .tuple ts => containsPtrList ts
  | _ => false

/-- Whether any type of a list contains a triton pointer type. -/
def containsPtrList : List MLIRType → Bool
  | [] => false
  | t :: ts => containsPtr t || containsPtrList ts

end

/-- `LogicalResult` of the MLIR support library. -/
inductive LogicalResult where
  | success
  | failure
deriving DecidableEq, Repr

/-- `TritonToStructuredPass::test` (lines 191–252): returns `failure()`
when `applyPartialOneToNConversion` fails, otherwise `failure()` when
the canonicalizer pipeline fails, otherwise `success()`. -/
def testResult (conversionOk canonOk : Bool) : LogicalResult :=
  if conversionOk then
    if canonOk then .success else .failure
  else .failure

/-- Observable effects of one `runOnOperation` invocation. -/
structure PassRun where
  typeConversionRan : Bool
  ptrAnalysisRan : Bool
  warningEmitted : Bool
  failureSignaled : Bool
deriving DecidableEq, Repr

/-- `TritonToStructuredPass::runOnOperation` (lines 254–264): it runs
`(void) test();` — discarding the `LogicalResult` — and immediately
returns.  `signalPassFailure` is never called, and the `PtrAnalysis`
invocation below the `return` statement is unreachable. -/
def runOnOperation (conversionOk canonOk ptrAnalysisOk : Bool) : PassRun :=
  let _ := testResult conversionOk canonOk
  let _ := ptrAnalysisOk
  { typeConversionRan := true
    ptrAnalysisRan := false
    warningEmitted := false
    failureSignaled := false }

/-- The dead `PtrAnalysis` branch of `runOnOperation` (lines 258–263),
as it would behave were it reachable: when `ptrAnalysis.rewriteOp`
fails it emits a warning on the module and continues (no abort, no
pass failure).  Returns (warningEmitted, aborted). -/
def ptrAnalysisStage (rewriteFailed : Bool) : Bool × Bool :=
  (rewriteFailed, false)

end TritonToStructured

open TritonShared TritonLoadStoreToMemref TritonToStructured

/-- C1: the claim says every masked-out load element equals the declared
zero value of the loaded element type, for all element types.  The code
instead emits a fixed `i32` zero for any integer element type and a fixed
`f32` zero otherwise (the `TODO: Get the same type as the one from
extractOp` comment at line 270 records the intended behavior).  Evaluated
at the failing input — a masked load of element type `i64` whose mask is
false — the produced element is the `i32` zero, not the `i64` zero; for
`f16` the fallback is an `f32` zero. -/
theorem C1_masked_fallback_wrong_type :
    tensorLoadResult (.int 64) (fun _ => 0) (some fun _ => false)
        (fun _ => ⟨.int 64, 7⟩) [0] = ⟨.int 32, 0⟩ ∧
    maskedLoadFallback (.int 64) ≠ declaredZero (.int 64) ∧
    maskedLoadFallback (.float 16) ≠ declaredZero (.float 16) := by
  refine ⟨rfl, ?_, ?_⟩ <;>
    simp [maskedLoadFallback, declaredZero, MLIRType.isInteger]

/-- C2 counterexample: at element type `f16` the zero-fill fallback has
element type `f32`, which does not match, yet the conversion pattern
reports success — no fatal/unsupported-type error is ever raised. -/
theorem C2_counterexample :
    (maskedLoadFallback (.float 16)).ty = .float 32 ∧
    MLIRType.float 32 ≠ MLIRType.float 16 ∧
    loadOpConvertStatus (.tensorOff [4] fun _ => 0) = .success := by
  refine ⟨rfl, ?_, rfl⟩
  simp

/-- C2 amended: the lowering performs no element-type check at all: the
fallback is always the `i32` zero for integer element types and the `f32`
zero otherwise, so its type matches the loaded element type exactly when
that type is `i32` or `f32`; for every element type (shaped offsets) the
conversion reports success, never an unsupported-type error. -/
theorem C2_no_type_check (elemTy : MLIRType) (shape : List Nat)
    (vals : List Nat → Nat) :
    ((maskedLoadFallback elemTy).ty = elemTy ↔
      elemTy = .int 32 ∨ elemTy = .float 32) ∧
    (maskedLoadFallback elemTy).val = 0 ∧
    loadOpConvertStatus (.tensorOff shape vals) = .success := by
  refine ⟨?_, ?_, rfl⟩ <;>
    cases elemTy <;>
      simp [maskedLoadFallback, MLIRType.isInteger, eq_comm]

/-- C3 counterexample: for the spec's example — a 1-D load of 1024
elements advanced by `i * 4` — the single buffer view the code emits has
strides `[1]`, not the descriptor's stride `[4]`: the view's offset and
strides do not come from the access's descriptor. -/
theorem C3_counterexample :
    (tensorLoadViews [1024] (.float 32)).map ReinterpretCast.strides = [[1]] ∧
    ([[1]] : List (List Nat)) ≠ [[4]] := by
  exact ⟨rfl, by decide⟩

/-- C3 amended: the lowering emits exactly one buffer view, always with
fixed offset 0, size 1024 and stride 1 (independent of the descriptor),
and materializes the load as a per-element gather through the offset
tensor: element `iv` equals the view element at `offsets iv`, so for the
example's offsets `4 * i` the loaded element `i` is the element at
`base + 4 * i` of the fixed window — no stride-4 view is created. -/
theorem C3_gather_lowering (shape : List Nat) (elemTy : MLIRType)
    (offsets : List Nat → Nat) (window : Nat → TypedValue)
    (iv : List Nat) (i : Nat) :
    tensorLoadViews shape elemTy = [⟨elemTy, 0, [1024], [1]⟩] ∧
    tensorLoadResult elemTy offsets none window iv = window (offsets iv) ∧
    tensorLoadResult elemTy (fun jv => 4 * jv.headD 0) none window [i]
      = window (4 * i) :=
  ⟨rfl, rfl, rfl⟩

/-- C4 counterexample: a scalar pointer type `!tt.ptr<i32>` is converted
to itself by the pass's 1-to-N type converter — it is not replaced by a
structured tuple, and a pointer type survives the conversion. -/
theorem C4_counterexample :
    oneToNConvertType (.ptr (.int 32)) = some [.ptr (.int 32)] ∧
    containsPtr (.ptr (.int 32)) = true :=
  ⟨rfl, rfl⟩

/-- C4 amended: the 1-to-N conversion rewrites only ranked
tensor-of-pointer types, each to the single tuple type
`{tensor-of-pointers, offset index tuple, stride index tuple}` whose
first component is still the original pointer-bearing tensor type; a
ranked tensor with any other element type fails to convert outright
(the callback returns an engaged `failure()`, with no fallthrough to
the identity rule); every type that is not a ranked tensor — scalar
pointers included — converts to itself.  So pointer types remain after
the conversion stage. -/
theorem C4_conversion_characterization (shape : List Nat) (e p t : MLIRType)
    (he : e.isPtr = false) (ht : t.isRankedTensor = false) :
    oneToNConvertType (.tensor shape (.ptr p)) =
      some [.tuple [.tensor shape (.ptr p),
                    .tuple (List.replicate shape.length .index),
                    .tuple (List.replicate shape.length .index)]] ∧
    oneToNConvertType (.tensor shape e) = none ∧
    oneToNConvertType t = some [t] ∧
    oneToNConvertType (.ptr p) = some [.ptr p] ∧
    containsPtr (.tuple [.tensor shape (.ptr p),
                         .tuple (List.replicate shape.length .index),
                         .tuple (List.replicate shape.length .index)]) = true := by
  refine ⟨rfl, ?_, ?_, rfl, ?_⟩
  · cases e <;> first | rfl | simp [MLIRType.isPtr] at he
  · cases t <;> first | rfl | simp [MLIRType.isRankedTensor] at ht
  · simp [containsPtr, containsPtrList]

/-- C4 witness: a tensor of pointers `tensor<16 x !tt.ptr<f32>>`, the
non-pointer tensor `tensor<16 x i32>` (which fails to convert), the
scalar `i8`, and the scalar pointer `!tt.ptr<f32>`. -/
theorem C4_conversion_characterization_witness :
    MLIRType.isPtr (.int 32) = false ∧
    MLIRType.isRankedTensor (.int 8) = false ∧
    (oneToNConvertType (.tensor [16] (.ptr (.float 32))) =
      some [.tuple [.tensor [16] (.ptr (.float 32)),
                    .tuple (List.replicate (List.length [16]) .index),
                    .tuple (List.replicate (List.length [16]) .index)]] ∧
    oneToNConvertType (.tensor [16] (.int 32)) = none ∧
    oneToNConvertType (.int 8) = some [.int 8] ∧
    oneToNConvertType (.ptr (.float 32)) = some [.ptr (.float 32)] ∧
    containsPtr (.tuple [.tensor [16] (.ptr (.float 32)),
                         .tuple (List.replicate (List.length [16]) .index),
                         .tuple (List.replicate (List.length [16]) .index)]) = true) :=
  ⟨rfl, rfl,
   C4_conversion_characterization [16] (.int 32) (.float 32) (.int 8) rfl rfl⟩

/-- C5 counterexample: when the structural conversion fails, `test()`
returns failure, yet `runOnOperation` leaves `failureSignaled` false —
no pass failure reaches the host driver. -/
theorem C5_counterexample :
    testResult false true = .failure ∧
    (runOnOperation false true true).failureSignaled = false :=
  ⟨rfl, rfl⟩

/-- C5 amended: a structural-conversion failure makes `test()` return
failure, but `runOnOperation` executes `(void) test(); return;` —
the result is discarded and `signalPassFailure` is never called, so no
pass failure is signaled to the host driver. -/
theorem C5_failure_discarded (conversionOk canonOk ptrOk : Bool)
    (h : conversionOk = false) :
    testResult conversionOk canonOk = .failure ∧
    (runOnOperation conversionOk canonOk ptrOk).failureSignaled = false := by
  subst h; exact ⟨rfl, rfl⟩

/-- C5 witness. -/
theorem C5_failure_discarded_witness :
    (false = false) ∧
    (testResult false false = .failure ∧
      (runOnOperation false false true).failureSignaled = false) :=
  ⟨rfl, C5_failure_discarded false false true rfl⟩

/-- C6 counterexample: the Pointer Analysis stage does not run — even on
a run where the type conversion completes successfully, `ptrAnalysisRan`
is false and no warning is ever emitted. -/
theorem C6_counterexample :
    (runOnOperation true true true).ptrAnalysisRan = false ∧
    (runOnOperation true true false).warningEmitted = false :=
  ⟨rfl, rfl⟩

/-- C6 amended: `runOnOperation` returns immediately after `(void)
test()`, so the `PtrAnalysis` invocation below the `return` is
unreachable: the stage never runs and no warning is emitted, whatever
the flags; the unreachable code would, were it executed, emit a
non-fatal warning on failure and continue rather than abort. -/
theorem C6_ptr_analysis_unreachable (c k p : Bool) :
    runOnOperation c k p =
      { typeConversionRan := true, ptrAnalysisRan := false,
        warningEmitted := false, failureSignaled := false } ∧
    ptrAnalysisStage true = (true, false) ∧
    ptrAnalysisStage false = (false, false) :=
  ⟨rfl, rfl, rfl⟩

/-- C9: the buffer view reinterpreting the base pointer is always
created with element type from the result, offset 0, static size 1024
and stride 1 — identical for any two result shapes, so independent of
the loaded tensor's shape and of the descriptor — and per-element
addressing comes solely from indexing that fixed window with the offset
tensor's values. -/
theorem C9_fixed_window_view (shape shape2 : List Nat) (elemTy : MLIRType)
    (offsets : List Nat → Nat) (window : Nat → TypedValue) (iv : List Nat) :
    tensorLoadViews shape elemTy = [⟨elemTy, 0, [1024], [1]⟩] ∧
    tensorLoadViews shape elemTy = tensorLoadViews shape2 elemTy ∧
    tensorLoadResult elemTy offsets none window iv = window (offsets iv) :=
  ⟨rfl, rfl, rfl⟩

/-- Filtering by a mask through `filterMap` is selecting the masked
elements and mapping. -/
theorem filterMap_mask {α β : Type} (m : α → Bool) (f : α → β) :
    ∀ l : List α,
      (l.filterMap fun x => if m x then some (f x) else none)
        = (l.filter m).map f
  | [] => rfl
  | x :: xs => by
    by_cases h : m x <;>
      simp [List.filterMap_cons, List.filter_cons, h, filterMap_mask m f xs]

/-- The masked store's event list is exactly the mask-selected part of
the index space, in loop order. -/
theorem storeEvents_masked (shape : List Nat) (offsets : List Nat → Nat)
    (value : List Nat → TypedValue) (m : List Nat → Bool) :
    storeEvents shape offsets value (some m)
      = ((indexSpace shape).filter m).map fun iv => (offsets iv, value iv) := by
  unfold storeEvents
  exact filterMap_mask m (fun iv => (offsets iv, value iv)) (indexSpace shape)

/-- An address touched by no event is unchanged by `applyStores`. -/
theorem applyStores_frame (a : Nat) :
    ∀ (evs : List (Nat × TypedValue)) (mem : Nat → TypedValue),
      (∀ p ∈ evs, p.1 ≠ a) → applyStores mem evs a = mem a
  | [], _, _ => rfl
  | (b, v) :: rest, mem, h => by
    have hb : b ≠ a := h (b, v) (List.mem_cons_self _ _)
    have ih := applyStores_frame a rest (fun x => if x = b then v else mem x)
      (fun p hp => h p (List.mem_cons_of_mem _ hp))
    have hab : ¬ a = b := fun hab => hb hab.symm
    rw [applyStores, ih]
    simp only [if_neg hab]

/-- C7: for every masked tensor store the lowering performs no store at
all for an element whose mask bit is false — the event list is exactly
the mask-true part of the index space — and consequently memory at any
address written by no mask-true element is left unmodified. -/
theorem C7_masked_store_frame (shape : List Nat) (offsets : List Nat → Nat)
    (value : List Nat → TypedValue) (m : List Nat → Bool)
    (mem : Nat → TypedValue) (a : Nat)
    (h : ∀ iv ∈ indexSpace shape, m iv = true → offsets iv ≠ a) :
    storeEvents shape offsets value (some m)
      = ((indexSpace shape).filter m).map (fun iv => (offsets iv, value iv)) ∧
    loweredStoreMem shape offsets value (some m) mem a = mem a := by
  refine ⟨storeEvents_masked shape offsets value m, ?_⟩
  unfold loweredStoreMem
  rw [storeEvents_masked]
  apply applyStores_frame
  intro p hp
  rcases List.mem_map.1 hp with ⟨iv, hiv, rfl⟩
  rcases List.mem_filter.1 hiv with ⟨hmem, hm⟩
  exact h iv hmem hm

/-- C7 witness: shape `[2]`, offsets `iv ↦ head iv`, mask true only at
`[0]`; address 1 (the masked-out element's address) keeps its old value. -/
theorem C7_masked_store_frame_witness :
    (∀ iv ∈ indexSpace [2],
        (fun iv : List Nat => iv.headD 0 == 0) iv = true →
          (fun iv : List Nat => iv.headD 0) iv ≠ 1) ∧
    (storeEvents [2] (fun iv => iv.headD 0) (fun _ => ⟨.int 32, 5⟩)
        (some fun iv => iv.headD 0 == 0)
      = ((indexSpace [2]).filter (fun iv => iv.headD 0 == 0)).map
          (fun iv => (iv.headD 0, (⟨.int 32, 5⟩ : TypedValue))) ∧
    loweredStoreMem [2] (fun iv => iv.headD 0) (fun _ => ⟨.int 32, 5⟩)
        (some fun iv => iv.headD 0 == 0) (fun _ => ⟨.int 32, 9⟩) 1
      = (fun _ => (⟨.int 32, 9⟩ : TypedValue)) 1) :=
  ⟨by decide,
   C7_masked_store_frame [2] (fun iv => iv.headD 0) (fun _ => ⟨.int 32, 5⟩)
     (fun iv => iv.headD 0 == 0) (fun _ => ⟨.int 32, 9⟩) 1 (by decide)⟩

/-- `forBounds` through the store loop nest: one loop per dimension, in
dimension order, followed by the loops of the innermost body. -/
theorem forBounds_storeLoopNest (inner : Emitted) :
    ∀ shape : List Nat,
      forBounds (storeLoopNest shape inner)
        = shape.map (fun d => (0, d)) ++ forBounds inner
  | [] => by simp [storeLoopNest]
  | d :: rest => by
    simp [storeLoopNest, forBounds, forBounds_storeLoopNest inner rest]

/-- `forDepth` through the store loop nest: the loops are nested, one
level per dimension. -/
theorem forDepth_storeLoopNest (inner : Emitted) :
    ∀ shape : List Nat,
      forDepth (storeLoopNest shape inner) = shape.length + forDepth inner
  | [] => by simp [storeLoopNest]
  | d :: rest => by
    simp [storeLoopNest, forDepth, forDepth_storeLoopNest inner rest]
    omega

/-- Guarded store count is preserved by the loop nest. -/
theorem guardedStores_storeLoopNest (inner : Emitted) :
    ∀ shape : List Nat,
      guardedStores (storeLoopNest shape inner) = guardedStores inner
  | [] => rfl
  | d :: rest => by
    simp [storeLoopNest, guardedStores, guardedStores_storeLoopNest inner rest]

/-- Unguarded store count is preserved by the loop nest. -/
theorem unguardedStores_storeLoopNest (inner : Emitted) :
    ∀ shape : List Nat,
      unguardedStores (storeLoopNest shape inner) = unguardedStores inner
  | [] => rfl
  | d :: rest => by
    simp [storeLoopNest, unguardedStores, unguardedStores_storeLoopNest inner rest]

/-- Total store count is preserved by the loop nest. -/
theorem totalStores_storeLoopNest (inner : Emitted) :
    ∀ shape : List Nat,
      totalStores (storeLoopNest shape inner) = totalStores inner
  | [] => rfl
  | d :: rest => by
    simp [storeLoopNest, totalStores, totalStores_storeLoopNest inner rest]

/-- C8: the tensor-store lowering emits exactly one `affine.for` loop
per tensor dimension, with bounds `0 ≤ i < dim` in the tensor's
dimension order, nested (the for-nesting depth equals the rank), and
exactly one scalar `memref.store` in the innermost body — guarded by the
mask's `scf.if` in the masked case, unguarded otherwise. -/
theorem C8_store_loop_structure (shape : List Nat) :
    forBounds (storeLowering shape true) = shape.map (fun d => (0, d)) ∧
    forBounds (storeLowering shape false) = shape.map (fun d => (0, d)) ∧
    forDepth (storeLowering shape true) = shape.length ∧
    forDepth (storeLowering shape false) = shape.length ∧
    totalStores (storeLowering shape true) = 1 ∧
    totalStores (storeLowering shape false) = 1 ∧
    guardedStores (storeLowering shape true) = 1 ∧
    unguardedStores (storeLowering shape true) = 0 ∧
    guardedStores (storeLowering shape false) = 0 ∧
    unguardedStores (storeLowering shape false) = 1 := by
  refine ⟨?_, ?_, ?_, ?_, ?_, ?_, ?_, ?_, ?_, ?_⟩ <;>
    simp [storeLowering, forBounds, forDepth, totalStores, guardedStores,
      unguardedStores, forBounds_storeLoopNest, forDepth_storeLoopNest,
      totalStores_storeLoopNest, guardedStores_storeLoopNest,
      unguardedStores_storeLoopNest, innerStoreBody]

/-- C10: the scalar load and store rewrites require the pointer operand
to be defined by a `tts::CreatePtrOp`: when the load/store is scalar
(int/index/float typed) but the pointer has no such defining op, both
rewrites dereference the null handle returned by `getDefiningOp`
instead of returning match failure. -/
theorem C10_scalar_null_deref (resultTy valueTy : MLIRType)
    (h1 : resultTy.isIntOrIndexOrFloat = true)
    (h2 : valueTy.isIntOrIndexOrFloat = true) :
    scalarLoadRewrite resultTy none = .nullDeref ∧
    scalarStoreRewrite valueTy none = .nullDeref := by
  constructor <;> simp [scalarLoadRewrite, scalarStoreRewrite, h1, h2]

/-- C10 witness: an `i32` scalar load and an `f32` scalar store whose
pointer operand has no defining `tts::CreatePtrOp`. -/
theorem C10_scalar_null_deref_witness :
    MLIRType.isIntOrIndexOrFloat (.int 32) = true ∧
    MLIRType.isIntOrIndexOrFloat (.float 32) = true ∧
    (scalarLoadRewrite (.int 32) none = .nullDeref ∧
      scalarStoreRewrite (.float 32) none = .nullDeref) :=
  ⟨rfl, rfl, C10_scalar_null_deref (.int 32) (.float 32) rfl rfl⟩
